import Mathlib

/-!
Shallow embedding of `src/src/App.js` (the single React component of the
simpleblog client) and verification of its specification claims.

The component's `useState` hooks become the fields of `AppState`; each
event handler becomes a function from `AppState` (plus the resolution of
its network call, modelled by `NetResult`) to a `StepOut`: the new state,
the HTTP requests dispatched, and the notification-clearing timers
scheduled.  The `useEffect` hook with dependency `[currentPage]` becomes
`listEffect`, which fires exactly when the page value changed across a
step, and the whole event loop is the `step` function together with the
`Reachable` relation.
-/

namespace SimpleBlog

/-- A blog post as served by the backend: `{id, title, content, image, published_date}`.
`image` is the image URL (possibly empty). -/
structure Post where
  id : Nat
  title : String
  content : String
  image : String
  published_date : String
deriving Repr, DecidableEq

/-- A file selected in the `<input type="file">` element. -/
structure ImageFile where
  name : String
deriving Repr, DecidableEq

/-- The `currentPage` state: 'list', 'create', 'view', 'edit'. -/
inductive Page
  | list
  | create
  | view
  | edit
deriving Repr, DecidableEq

/-- The `notification` state: `{ message, type }`. -/
structure Notification where
  message : String
  type : String
deriving Repr, DecidableEq

/-- All the `useState` hooks of the `App` component, in source order. -/
structure AppState where
  posts : List Post
  currentPost : Option Post
  showForm : Bool
  title : String
  content : String
  image : Option ImageFile
  imageUrl : String
  notification : Notification
  currentPage : Page
deriving Repr, DecidableEq

/-- HTTP method of a `fetch` call. -/
inductive Method
  | GET
  | POST
  | PUT
  | DELETE
deriving Repr, DecidableEq, BEq

/-- A value appended to a `FormData` object: a text field or a file. -/
inductive FormValue
  | text (s : String)
  | file (f : ImageFile)
deriving Repr, DecidableEq

/-- A request body: either `multipart/form-data` (a `FormData` object) or a
JSON document.  The component only ever builds `FormData` bodies; the
`json` constructor exists so that the encoding choice is expressible. -/
inductive Body
  | formData (entries : List (String × FormValue))
  | json (fields : List (String × String))
deriving Repr, DecidableEq

/-- Whether a body is `multipart/form-data`. -/
def Body.isMultipart : Body → Bool
  | .formData _ => true
  | .json _ => false

/-- Whether a body is structured JSON. -/
def Body.isJson : Body → Bool
  | .formData _ => false
  | .json _ => true

/-- One HTTP request dispatched by `fetch`. -/
structure Request where
  method : Method
  url : String
  body : Option Body
deriving Repr, DecidableEq

/-- A timer scheduled with `setTimeout`; its action (here always the
clearing of the notification) fires after `delay` milliseconds. -/
structure Timer where
  delay : Nat
deriving Repr, DecidableEq

/-- The resolution of one `fetch` call: either the server responded (with
a status code and, when the body was parsed, data of type `α`), or the
promise rejected (network error). -/
inductive NetResult (α : Type)
  | response (status : Nat) (data : α)
  | netError
deriving Repr, DecidableEq

/-- `response.ok`: status in the range 200–299. -/
def statusOk (status : Nat) : Bool :=
  200 ≤ status && status < 300

/-- Whether the call succeeded, i.e. did not end in the `catch` block:
the promise resolved and `response.ok` held. -/
def NetResult.isOk {α : Type} : NetResult α → Bool
  | .response status _ => statusOk status
  | .netError => false

/-- `API_BASE_URL = 'http://localhost:8000/api/posts/'`. -/
def API_BASE_URL : String := "http://localhost:8000/api/posts/"

/-- The per-post endpoint `${API_BASE_URL}${id}/`. -/
def postUrl (id : Nat) : String := API_BASE_URL ++ toString id ++ "/"

/-- The cleared notification `{ message: '', type: '' }`. -/
def emptyNotification : Notification := ⟨"", ""⟩

/-- `showNotification(message, type)`: sets the notification and schedules
a `setTimeout` of 3000 ms that will clear it. -/
def showNotification (s : AppState) (message ty : String) : AppState × Timer :=
  ({ s with notification := ⟨message, ty⟩ }, ⟨3000⟩)

/-- The body of the `setTimeout` callback in `showNotification`: resets
the notification to `{ message: '', type: '' }`. -/
def clearNotification (s : AppState) : AppState :=
  { s with notification := emptyNotification }

/-- The observable result of running one event handler: the new state,
the HTTP requests dispatched, and the timers scheduled. -/
structure StepOut where
  state : AppState
  requests : List Request
  timers : List Timer
deriving Repr, DecidableEq

/-- `fetchPosts`: GET the collection; on success replace `posts` with the
parsed data, on any failure show an error notification. -/
def fetchPosts (s : AppState) (r : NetResult (List Post)) : StepOut :=
  let req : Request := ⟨Method.GET, API_BASE_URL, none⟩
  match r with
  | .response status data =>
    if statusOk status then
      ⟨{ s with posts := data }, [req], []⟩
    else
      let (s', t) := showNotification s "Failed to fetch posts." "error"
      ⟨s', [req], [t]⟩
  | .netError =>
    let (s', t) := showNotification s "Failed to fetch posts." "error"
    ⟨s', [req], [t]⟩

/-- `fetchPostById(id)`: GET the single post; on success set
`currentPost`, seed the form fields from the fetched data, clear the file
input and go to the view page; on any failure show an error notification. -/
def fetchPostById (s : AppState) (id : Nat) (r : NetResult Post) : StepOut :=
  let req : Request := ⟨Method.GET, postUrl id, none⟩
  match r with
  | .response status data =>
    if statusOk status then
      ⟨{ s with currentPost := some data, title := data.title, content := data.content,
                imageUrl := data.image, image := none, currentPage := Page.view },
        [req], []⟩
    else
      let (s', t) := showNotification s "Failed to fetch post details." "error"
      ⟨s', [req], [t]⟩
  | .netError =>
    let (s', t) := showNotification s "Failed to fetch post details." "error"
    ⟨s', [req], [t]⟩

/-- The `FormData` built by `handleSubmit`: always `title` and `content`,
plus `image` exactly when a new file was selected.  The `else if` branch
of the source appends nothing (its body is only comments), and the
existing `imageUrl` is never appended. -/
def buildFormData (s : AppState) : List (String × FormValue) :=
  [("title", FormValue.text s.title), ("content", FormValue.text s.content)] ++
    (match s.image with
     | some f => [("image", FormValue.file f)]
     | none => [])

/-- The method and URL chosen by `handleSubmit`: PUT to the per-post
endpoint when `currentPost` is set and the page is `edit`, else POST to
the collection endpoint. -/
def submitMethodUrl (s : AppState) : Method × String :=
  match s.currentPost with
  | some p =>
    if s.currentPage = Page.edit then (Method.PUT, postUrl p.id)
    else (Method.POST, API_BASE_URL)
  | none => (Method.POST, API_BASE_URL)

/-- The verb used in `handleSubmit`'s notification messages:
`currentPost ? 'updated' : 'created'`. -/
def submitVerb (s : AppState) : String :=
  match s.currentPost with
  | some _ => "updated"
  | none => "created"

/-- `handleSubmit`: build the form data, dispatch one POST/PUT; on success
show a success notification, reset all form state and return to the list
page; on any failure show an error notification and change nothing else. -/
def handleSubmit (s : AppState) (r : NetResult Unit) : StepOut :=
  let formData := buildFormData s
  let mu := submitMethodUrl s
  let req : Request := ⟨mu.1, mu.2, some (Body.formData formData)⟩
  match r with
  | .response status _ =>
    if statusOk status then
      let (s1, t) := showNotification s ("Post " ++ submitVerb s ++ " successfully!") "success"
      ⟨{ s1 with title := "", content := "", image := none, imageUrl := "",
                 currentPost := none, showForm := false, currentPage := Page.list },
        [req], [t]⟩
    else
      let (s', t) := showNotification s ("Failed to " ++
        (match s.currentPost with | some _ => "update" | none => "create") ++ " post.") "error"
      ⟨s', [req], [t]⟩
  | .netError =>
    let (s', t) := showNotification s ("Failed to " ++
      (match s.currentPost with | some _ => "update" | none => "create") ++ " post.") "error"
    ⟨s', [req], [t]⟩

/-- `handleDelete(id)`: dispatch one DELETE with no confirmation gate; on
success show a success notification and set the page to `list`; on any
failure show an error notification. -/
def handleDelete (s : AppState) (id : Nat) (r : NetResult Unit) : StepOut :=
  let req : Request := ⟨Method.DELETE, postUrl id, none⟩
  match r with
  | .response status _ =>
    if statusOk status then
      let (s', t) := showNotification s "Post deleted successfully!" "success"
      ⟨{ s' with currentPage := Page.list }, [req], [t]⟩
    else
      let (s', t) := showNotification s "Failed to delete post." "error"
      ⟨s', [req], [t]⟩
  | .netError =>
    let (s', t) := showNotification s "Failed to delete post." "error"
    ⟨s', [req], [t]⟩

/-- `handleCreateNew`: clear the selection and the form, go to the create
page. -/
def handleCreateNew (s : AppState) : AppState :=
  { s with currentPost := none, title := "", content := "", image := none,
           imageUrl := "", showForm := true, currentPage := Page.create }

/-- `handleEdit(post)`: select the given in-memory post, seed the form
fields from it, clear the file input, go to the edit page.  No network
call is made. -/
def handleEdit (s : AppState) (post : Post) : AppState :=
  { s with currentPost := some post, title := post.title, content := post.content,
           image := none, imageUrl := post.image, showForm := true,
           currentPage := Page.edit }

/-- `handleImageChange(e)`: store the first selected file, if any. -/
def handleImageChange (s : AppState) (files : List ImageFile) : AppState :=
  match files with
  | f :: _ => { s with image := some f }
  | [] => s

/-- `setCurrentPage('list')` as invoked by the Cancel and Back buttons. -/
def goToList (s : AppState) : AppState :=
  { s with currentPage := Page.list }

/-- The `useEffect` with dependency list `[currentPage]`: it re-runs when
`currentPage` changed across a render, and its body calls `fetchPosts`
when the page is `list`. -/
def listEffect (oldPage : Page) (s : AppState) (r : NetResult (List Post)) : StepOut :=
  if oldPage ≠ s.currentPage ∧ s.currentPage = Page.list then fetchPosts s r
  else ⟨s, [], []⟩

/-- The user- and timer-driven events of the component, each carrying the
resolution of the network call it triggers (if any). -/
inductive Event
  | createNew
  | editPost (post : Post)
  | viewPost (id : Nat) (r : NetResult Post)
  | deletePost (id : Nat) (r : NetResult Unit)
  | cancelToList
  | submitForm (r : NetResult Unit)
  | imageChange (files : List ImageFile)
  | setTitleField (t : String)
  | setContentField (c : String)
  | notificationTimerFire

/-- Run the handler attached to an event. -/
def dispatch (s : AppState) (e : Event) : StepOut :=
  match e with
  | .createNew => ⟨handleCreateNew s, [], []⟩
  | .editPost p => ⟨handleEdit s p, [], []⟩
  | .viewPost id r => fetchPostById s id r
  | .deletePost id r => handleDelete s id r
  | .cancelToList => ⟨goToList s, [], []⟩
  | .submitForm r => handleSubmit s r
  | .imageChange files => ⟨handleImageChange s files, [], []⟩
  | .setTitleField t => ⟨{ s with title := t }, [], []⟩
  | .setContentField c => ⟨{ s with content := c }, [], []⟩
  | .notificationTimerFire => ⟨clearNotification s, [], []⟩

/-- One full step of the event loop: run the handler, then the
`[currentPage]` effect (whose list fetch resolves with `r`). -/
def step (s : AppState) (e : Event) (r : NetResult (List Post)) : StepOut :=
  let o := dispatch s e
  let eff := listEffect s.currentPage o.state r
  ⟨eff.state, o.requests ++ eff.requests, o.timers ++ eff.timers⟩

/-- The initial values of the `useState` hooks. -/
def initialState : AppState :=
  { posts := [], currentPost := none, showForm := false, title := "",
    content := "", image := none, imageUrl := "",
    notification := emptyNotification, currentPage := Page.list }

/-- The UI states reachable from mount: the initial state, the states
after the mount effect's list fetch resolves, and everything reachable by
steps of the event loop. -/
inductive Reachable : AppState → Prop
  | init : Reachable initialState
  | mount (r : NetResult (List Post)) : Reachable (fetchPosts initialState r).state
  | next (s : AppState) (e : Event) (r : NetResult (List Post)) :
      Reachable s → Reachable (step s e r).state

/-- Whether a request is a fetch of the whole post collection. -/
def isListFetch (req : Request) : Bool :=
  decide (req.method = Method.GET) && decide (req.url = API_BASE_URL)

/-- The invariant claimed in the spec: on the view and edit pages a post
is currently selected. -/
def pageInv (s : AppState) : Prop :=
  s.currentPage = Page.view ∨ s.currentPage = Page.edit → s.currentPost.isSome = true

/-- A concrete post used to instantiate witness theorems. -/
def samplePost : Post :=
  ⟨7, "Hello", "World", "pic.png", "2024-01-01"⟩

/-! ### Basic lemmas about the handlers and the effect -/

theorem fetchPosts_requests (s : AppState) (r : NetResult (List Post)) :
    (fetchPosts s r).requests = [⟨Method.GET, API_BASE_URL, none⟩] := by
  cases r with
  | response status d =>
    by_cases h : statusOk status = true <;> simp [fetchPosts, showNotification, h]
  | netError => rfl

theorem fetchPosts_page (s : AppState) (r : NetResult (List Post)) :
    (fetchPosts s r).state.currentPage = s.currentPage := by
  cases r with
  | response status d =>
    by_cases h : statusOk status = true <;> simp [fetchPosts, showNotification, h]
  | netError => rfl

theorem fetchPosts_currentPost (s : AppState) (r : NetResult (List Post)) :
    (fetchPosts s r).state.currentPost = s.currentPost := by
  cases r with
  | response status d =>
    by_cases h : statusOk status = true <;> simp [fetchPosts, showNotification, h]
  | netError => rfl

theorem listEffect_page (p : Page) (s : AppState) (r : NetResult (List Post)) :
    (listEffect p s r).state.currentPage = s.currentPage := by
  unfold listEffect
  split
  · exact fetchPosts_page s r
  · rfl

theorem listEffect_currentPost (p : Page) (s : AppState) (r : NetResult (List Post)) :
    (listEffect p s r).state.currentPost = s.currentPost := by
  unfold listEffect
  split
  · exact fetchPosts_currentPost s r
  · rfl

theorem listEffect_not_fired (p : Page) (s : AppState) (r : NetResult (List Post))
    (h : ¬(p ≠ s.currentPage ∧ s.currentPage = Page.list)) :
    listEffect p s r = ⟨s, [], []⟩ := by
  unfold listEffect
  rw [if_neg h]

theorem listEffect_fired (p : Page) (s : AppState) (r : NetResult (List Post))
    (h1 : p ≠ s.currentPage) (h2 : s.currentPage = Page.list) :
    listEffect p s r = fetchPosts s r := by
  unfold listEffect
  rw [if_pos ⟨h1, h2⟩]

theorem step_state (s : AppState) (e : Event) (r : NetResult (List Post)) :
    (step s e r).state = (listEffect s.currentPage (dispatch s e).state r).state := rfl

theorem step_requests (s : AppState) (e : Event) (r : NetResult (List Post)) :
    (step s e r).requests
      = (dispatch s e).requests ++ (listEffect s.currentPage (dispatch s e).state r).requests := rfl

theorem step_timers (s : AppState) (e : Event) (r : NetResult (List Post)) :
    (step s e r).timers
      = (dispatch s e).timers ++ (listEffect s.currentPage (dispatch s e).state r).timers := rfl

theorem step_page (s : AppState) (e : Event) (r : NetResult (List Post)) :
    (step s e r).state.currentPage = (dispatch s e).state.currentPage :=
  listEffect_page s.currentPage (dispatch s e).state r

theorem step_currentPost (s : AppState) (e : Event) (r : NetResult (List Post)) :
    (step s e r).state.currentPost = (dispatch s e).state.currentPost :=
  listEffect_currentPost s.currentPage (dispatch s e).state r

theorem handleSubmit_requests (s : AppState) (r : NetResult Unit) :
    (handleSubmit s r).requests
      = [⟨(submitMethodUrl s).1, (submitMethodUrl s).2, some (Body.formData (buildFormData s))⟩] := by
  cases r with
  | response status d =>
    by_cases h : statusOk status = true <;> simp [handleSubmit, showNotification, h]
  | netError => rfl

theorem handleDelete_requests (s : AppState) (id : Nat) (r : NetResult Unit) :
    (handleDelete s id r).requests = [⟨Method.DELETE, postUrl id, none⟩] := by
  cases r with
  | response status d =>
    by_cases h : statusOk status = true <;> simp [handleDelete, showNotification, h]
  | netError => rfl

theorem step_no_effect (s : AppState) (e : Event) (r : NetResult (List Post))
    (h : (dispatch s e).state.currentPage ≠ Page.list) :
    step s e r = ⟨(dispatch s e).state, (dispatch s e).requests, (dispatch s e).timers⟩ := by
  have hn := listEffect_not_fired s.currentPage (dispatch s e).state r (fun hc => h hc.2)
  simp [step, hn]

theorem step_no_effect_same_page (s : AppState) (e : Event) (r : NetResult (List Post))
    (h : (dispatch s e).state.currentPage = s.currentPage) :
    step s e r = ⟨(dispatch s e).state, (dispatch s e).requests, (dispatch s e).timers⟩ := by
  have hn := listEffect_not_fired s.currentPage (dispatch s e).state r (fun hc => hc.1 h.symm)
  simp [step, hn]

theorem step_effect_fired (s : AppState) (e : Event) (r : NetResult (List Post))
    (h1 : s.currentPage ≠ Page.list) (h2 : (dispatch s e).state.currentPage = Page.list) :
    step s e r = ⟨(fetchPosts (dispatch s e).state r).state,
                  (dispatch s e).requests ++ [⟨Method.GET, API_BASE_URL, none⟩],
                  (dispatch s e).timers ++ (fetchPosts (dispatch s e).state r).timers⟩ := by
  have hf := listEffect_fired s.currentPage (dispatch s e).state r (by rw [h2]; exact h1) h2
  simp [step, hf, fetchPosts_requests]

/-! ### Claim theorems -/

/-- Claim C1 (counterexample): submitting the create form when the request
fails (HTTP 500) dispatches the request but leaves the page on `create`,
so the claim that submission returns to the list page after the request
is false. -/
theorem submit_failure_stays_on_form_page :
    (handleSubmit (handleCreateNew initialState) (NetResult.response 500 ())).requests.length = 1 ∧
    (handleSubmit (handleCreateNew initialState) (NetResult.response 500 ())).state.currentPage
        = Page.create ∧
    Page.create ≠ Page.list := by
  decide

/-- Claim C1 (amended): form submission dispatches exactly one HTTP
request, PUT to `/posts/{id}/` when a post is currently selected and POST
to the collection endpoint otherwise (on the reachable form pages, where
the create page has no selected post); on success it returns to the list
page, and on failure it stays on the current page. -/
theorem submit_one_request_method_and_page (s : AppState) (r : NetResult Unit)
    (hform : s.currentPage = Page.create ∨ s.currentPage = Page.edit)
    (hinv : s.currentPage = Page.create → s.currentPost = none) :
    (handleSubmit s r).requests.length = 1 ∧
    (∀ p : Post, s.currentPost = some p →
      (handleSubmit s r).requests
        = [⟨Method.PUT, postUrl p.id, some (Body.formData (buildFormData s))⟩]) ∧
    (s.currentPost = none →
      (handleSubmit s r).requests
        = [⟨Method.POST, API_BASE_URL, some (Body.formData (buildFormData s))⟩]) ∧
    (r.isOk = true → (handleSubmit s r).state.currentPage = Page.list) ∧
    (r.isOk = false → (handleSubmit s r).state.currentPage = s.currentPage) := by
  refine ⟨?_, ?_, ?_, ?_, ?_⟩
  · rw [handleSubmit_requests]; rfl
  · intro p hp
    have hedit : s.currentPage = Page.edit := by
      rcases hform with h | h
      · rw [hinv h] at hp; simp at hp
      · exact h
    rw [handleSubmit_requests]
    simp [submitMethodUrl, hp, hedit]
  · intro hp
    rw [handleSubmit_requests]
    simp [submitMethodUrl, hp]
  · intro hok
    cases r with
    | response status d =>
      have h : statusOk status = true := hok
      simp [handleSubmit, showNotification, h]
    | netError => exact absurd hok (by decide)
  · intro hfail
    cases r with
    | response status d =>
      have h : statusOk status = false := hfail
      simp [handleSubmit, showNotification, h]
    | netError => simp [handleSubmit, showNotification]

/-- Witness for the amended C1 theorem at a concrete edit state. -/
theorem submit_one_request_method_and_page_witness :
    (handleSubmit (handleEdit initialState samplePost) (NetResult.response 204 ())).requests.length = 1 ∧
    (handleSubmit (handleEdit initialState samplePost) (NetResult.response 204 ())).state.currentPage
        = Page.list := by
  have h := submit_one_request_method_and_page (handleEdit initialState samplePost)
    (NetResult.response 204 ()) (Or.inr rfl) (fun hc => absurd hc (by decide))
  exact ⟨h.1, h.2.2.2.1 (by decide)⟩

/-- Claim C2 (counterexample): a submission with no image file attached
still sends a `FormData` (multipart) body, not structured JSON, so the
claim that `save` sends JSON when no image is attached is false. -/
theorem submit_without_image_not_json :
    (handleCreateNew initialState).image = none ∧
    (handleSubmit (handleCreateNew initialState) (NetResult.response 201 ())).requests.map
        (fun q => q.body.map Body.isJson)
      = [some false] := by
  decide

/-- Claim C2 (amended): `save` always sends a multipart `FormData` body,
whether or not an image file is attached; it never sends JSON. -/
theorem submit_always_multipart (s : AppState) (r : NetResult Unit) :
    (handleSubmit s r).requests.map Request.body = [some (Body.formData (buildFormData s))] ∧
    Body.isMultipart (Body.formData (buildFormData s)) = true ∧
    Body.isJson (Body.formData (buildFormData s)) = false := by
  refine ⟨?_, rfl, rfl⟩
  rw [handleSubmit_requests]
  rfl

/-- Claim C3 (counterexample): entering the edit page for a concrete post
issues no HTTP request at all, so the claim that entering edit fetches
the post by id from the backend is false. -/
theorem edit_entry_issues_no_request :
    (step initialState (Event.editPost samplePost) NetResult.netError).state.currentPage
        = Page.edit ∧
    (step initialState (Event.editPost samplePost) NetResult.netError).requests = [] := by
  decide

/-- Claim C3 (amended): entering the view page fetches the single post by
id (one GET of `/posts/{id}/`) and seeds the form fields from the fetched
data; entering the edit page seeds the form fields from the in-memory
post object and issues no backend fetch. -/
theorem view_fetches_edit_seeds_locally (s : AppState) (id status : Nat) (p post : Post)
    (r2 r3 : NetResult (List Post)) (hok : statusOk status = true) :
    ((step s (Event.viewPost id (NetResult.response status p)) r2).requests
        = [⟨Method.GET, postUrl id, none⟩] ∧
      (step s (Event.viewPost id (NetResult.response status p)) r2).state.currentPage = Page.view ∧
      (step s (Event.viewPost id (NetResult.response status p)) r2).state.currentPost = some p ∧
      (step s (Event.viewPost id (NetResult.response status p)) r2).state.title = p.title ∧
      (step s (Event.viewPost id (NetResult.response status p)) r2).state.content = p.content ∧
      (step s (Event.viewPost id (NetResult.response status p)) r2).state.imageUrl = p.image) ∧
    ((step s (Event.editPost post) r3).requests = [] ∧
      (step s (Event.editPost post) r3).state.currentPage = Page.edit ∧
      (step s (Event.editPost post) r3).state.currentPost = some post ∧
      (step s (Event.editPost post) r3).state.title = post.title ∧
      (step s (Event.editPost post) r3).state.content = post.content ∧
      (step s (Event.editPost post) r3).state.imageUrl = post.image) := by
  have hview : dispatch s (Event.viewPost id (NetResult.response status p))
      = ⟨{ s with currentPost := some p, title := p.title, content := p.content,
                  imageUrl := p.image, image := none, currentPage := Page.view },
          [⟨Method.GET, postUrl id, none⟩], []⟩ := by
    simp [dispatch, fetchPostById, hok]
  have hv := step_no_effect s (Event.viewPost id (NetResult.response status p)) r2
    (by rw [hview]; exact (by decide : Page.view ≠ Page.list))
  have he := step_no_effect s (Event.editPost post) r3
    (by intro hc; simp [dispatch, handleEdit] at hc)
  constructor
  · rw [hv, hview]
    exact ⟨rfl, rfl, rfl, rfl, rfl, rfl⟩
  · rw [he]
    exact ⟨rfl, rfl, rfl, rfl, rfl, rfl⟩

/-- Witness for the amended C3 theorem at a concrete post. -/
theorem view_fetches_edit_seeds_locally_witness :
    (step initialState (Event.viewPost 7 (NetResult.response 200 samplePost))
        NetResult.netError).state.currentPage = Page.view ∧
    (step initialState (Event.editPost samplePost) NetResult.netError).requests = [] := by
  have h := view_fetches_edit_seeds_locally initialState 7 200 samplePost samplePost
    NetResult.netError NetResult.netError (by decide)
  exact ⟨h.1.2.1, h.2.1⟩

/-- Claim C6: for every post id and from every state, `handleDelete`
issues exactly one DELETE request to `/posts/{id}/` with no confirmation
gate, and on success sets the page to `list`. -/
theorem delete_single_request_then_list (s : AppState) (id : Nat) (r : NetResult Unit) :
    (handleDelete s id r).requests = [⟨Method.DELETE, postUrl id, none⟩] ∧
    (r.isOk = true → (handleDelete s id r).state.currentPage = Page.list) := by
  refine ⟨handleDelete_requests s id r, ?_⟩
  intro hok
  cases r with
  | response status d =>
    have h : statusOk status = true := hok
    simp [handleDelete, showNotification, h]
  | netError => exact absurd hok (by decide)

/-- Witness for C6: delete invoked from the create page with a 204
response. -/
theorem delete_single_request_then_list_witness :
    (handleDelete (handleCreateNew initialState) 7 (NetResult.response 204 ())).requests
        = [⟨Method.DELETE, postUrl 7, none⟩] ∧
    (handleDelete (handleCreateNew initialState) 7 (NetResult.response 204 ())).state.currentPage
        = Page.list := by
  have h := delete_single_request_then_list (handleCreateNew initialState) 7
    (NetResult.response 204 ())
  exact ⟨h.1, h.2 (by decide)⟩

/-- Claim C10: every submission's body contains the `title` and `content`
fields, contains an `image` field exactly when a new image file has been
selected (carrying that file), and is independent of the stored
`imageUrl`, so no existing image URL is ever sent. -/
theorem submit_body_fields (s : AppState) (r : NetResult Unit) :
    (handleSubmit s r).requests.map Request.body = [some (Body.formData (buildFormData s))] ∧
    ("title", FormValue.text s.title) ∈ buildFormData s ∧
    ("content", FormValue.text s.content) ∈ buildFormData s ∧
    ((buildFormData s).filter (fun e => decide (e.1 = "image"))
      = match s.image with
        | some f => [("image", FormValue.file f)]
        | none => []) ∧
    (∀ u : String, buildFormData { s with imageUrl := u } = buildFormData s) := by
  refine ⟨?_, ?_, ?_, ?_, fun u => rfl⟩
  · rw [handleSubmit_requests]; rfl
  · simp [buildFormData]
  · simp [buildFormData]
  · have h1 : (decide (("title" : String) = "image")) = false := by decide
    have h2 : (decide (("content" : String) = "image")) = false := by decide
    have h3 : (decide (("image" : String) = "image")) = true := by decide
    cases himg : s.image with
    | some f => simp [buildFormData, himg, List.filter, h1, h2, h3]
    | none => simp [buildFormData, himg, List.filter, h1, h2]

/-! ### Further helper lemmas -/

theorem submitMethodUrl_fst_ne_get (s : AppState) :
    (decide ((submitMethodUrl s).1 = Method.GET)) = false := by
  cases hcp : s.currentPost with
  | none => simp [submitMethodUrl, hcp]
  | some p =>
    by_cases h : s.currentPage = Page.edit <;> simp [submitMethodUrl, hcp, h]

theorem pageInv_of_eq (s s' : AppState) (hpage : s'.currentPage = s.currentPage)
    (hpost : s'.currentPost = s.currentPost) (h : pageInv s) : pageInv s' := by
  intro hp
  rw [hpage] at hp
  rw [hpost]
  exact h hp

theorem pageInv_dispatch (s : AppState) (e : Event) (h : pageInv s) :
    pageInv (dispatch s e).state := by
  cases e with
  | createNew => intro hp; simp [dispatch, handleCreateNew] at hp
  | editPost p => intro hp; simp [dispatch, handleEdit]
  | viewPost id rv =>
    cases rv with
    | response status d =>
      by_cases hst : statusOk status = true
      · intro hp; simp [dispatch, fetchPostById, hst]
      · exact pageInv_of_eq s _ (by simp [dispatch, fetchPostById, hst, showNotification])
          (by simp [dispatch, fetchPostById, hst, showNotification]) h
    | netError =>
      exact pageInv_of_eq s _ (by simp [dispatch, fetchPostById, showNotification])
        (by simp [dispatch, fetchPostById, showNotification]) h
  | deletePost id rd =>
    cases rd with
    | response status d =>
      by_cases hst : statusOk status = true
      · intro hp; simp [dispatch, handleDelete, hst, showNotification] at hp
      · exact pageInv_of_eq s _ (by simp [dispatch, handleDelete, hst, showNotification])
          (by simp [dispatch, handleDelete, hst, showNotification]) h
    | netError =>
      exact pageInv_of_eq s _ (by simp [dispatch, handleDelete, showNotification])
        (by simp [dispatch, handleDelete, showNotification]) h
  | cancelToList => intro hp; simp [dispatch, goToList] at hp
  | submitForm ru =>
    cases ru with
    | response status d =>
      by_cases hst : statusOk status = true
      · intro hp; simp [dispatch, handleSubmit, hst, showNotification] at hp
      · exact pageInv_of_eq s _ (by simp [dispatch, handleSubmit, hst, showNotification])
          (by simp [dispatch, handleSubmit, hst, showNotification]) h
    | netError =>
      exact pageInv_of_eq s _ (by simp [dispatch, handleSubmit, showNotification])
        (by simp [dispatch, handleSubmit, showNotification]) h
  | imageChange files =>
    cases files with
    | nil => exact pageInv_of_eq s _ rfl rfl h
    | cons f l => exact pageInv_of_eq s _ rfl rfl h
  | setTitleField t => exact pageInv_of_eq s _ rfl rfl h
  | setContentField c => exact pageInv_of_eq s _ rfl rfl h
  | notificationTimerFire => exact pageInv_of_eq s _ rfl rfl h

theorem pageInv_step (s : AppState) (e : Event) (r : NetResult (List Post)) (h : pageInv s) :
    pageInv (step s e r).state :=
  pageInv_of_eq (dispatch s e).state (step s e r).state (step_page s e r)
    (step_currentPost s e r) (pageInv_dispatch s e h)

theorem dispatch_timers_all_3000 (s : AppState) (e : Event) :
    ((dispatch s e).timers.all (fun t => decide (t.delay = 3000))) = true := by
  cases e with
  | createNew => rfl
  | editPost p => rfl
  | viewPost id rv =>
    cases rv with
    | response status d =>
      by_cases hst : statusOk status = true <;>
        simp [dispatch, fetchPostById, hst, showNotification]
    | netError => rfl
  | deletePost id rd =>
    cases rd with
    | response status d =>
      by_cases hst : statusOk status = true <;>
        simp [dispatch, handleDelete, hst, showNotification]
    | netError => rfl
  | cancelToList => rfl
  | submitForm ru =>
    cases ru with
    | response status d =>
      by_cases hst : statusOk status = true <;>
        simp [dispatch, handleSubmit, hst, showNotification]
    | netError => rfl
  | imageChange files => cases files <;> rfl
  | setTitleField t => rfl
  | setContentField c => rfl
  | notificationTimerFire => rfl

theorem listEffect_timers_all_3000 (p : Page) (s : AppState) (r : NetResult (List Post)) :
    ((listEffect p s r).timers.all (fun t => decide (t.delay = 3000))) = true := by
  unfold listEffect
  split
  · cases r with
    | response status d =>
      by_cases hst : statusOk status = true <;>
        simp [fetchPosts, hst, showNotification]
    | netError => rfl
  · rfl

theorem step_timers_all_3000 (s : AppState) (e : Event) (r : NetResult (List Post)) :
    ((step s e r).timers.all (fun t => decide (t.delay = 3000))) = true := by
  rw [step_timers, List.all_append, dispatch_timers_all_3000, listEffect_timers_all_3000]
  rfl

/-- Claim C4: every network-call failure — rejected promise or any
response with a non-2xx status, at any of the four call sites — produces
the same outcome: an error notification is set, the page stays on the
current page, and the post list in state is unchanged. -/
theorem network_failure_uniform_outcome (s : AppState) (id : Nat)
    (rl : NetResult (List Post)) (rp : NetResult Post) (ru rd : NetResult Unit)
    (hl : rl.isOk = false) (hp : rp.isOk = false)
    (hu : ru.isOk = false) (hd : rd.isOk = false) :
    ((fetchPosts s rl).state.currentPage = s.currentPage ∧
      (fetchPosts s rl).state.posts = s.posts ∧
      (fetchPosts s rl).state.notification.type = "error" ∧
      (fetchPosts s rl).state.notification.message ≠ "") ∧
    ((fetchPostById s id rp).state.currentPage = s.currentPage ∧
      (fetchPostById s id rp).state.posts = s.posts ∧
      (fetchPostById s id rp).state.notification.type = "error" ∧
      (fetchPostById s id rp).state.notification.message ≠ "") ∧
    ((handleSubmit s ru).state.currentPage = s.currentPage ∧
      (handleSubmit s ru).state.posts = s.posts ∧
      (handleSubmit s ru).state.notification.type = "error" ∧
      (handleSubmit s ru).state.notification.message ≠ "") ∧
    ((handleDelete s id rd).state.currentPage = s.currentPage ∧
      (handleDelete s id rd).state.posts = s.posts ∧
      (handleDelete s id rd).state.notification.type = "error" ∧
      (handleDelete s id rd).state.notification.message ≠ "") := by
  refine ⟨?_, ?_, ?_, ?_⟩
  · cases rl with
    | response status d =>
      have h : statusOk status = false := hl
      refine ⟨?_, ?_, ?_, ?_⟩ <;> simp [fetchPosts, showNotification, h]
    | netError =>
      refine ⟨?_, ?_, ?_, ?_⟩ <;> simp [fetchPosts, showNotification]
  · cases rp with
    | response status d =>
      have h : statusOk status = false := hp
      refine ⟨?_, ?_, ?_, ?_⟩ <;> simp [fetchPostById, showNotification, h]
    | netError =>
      refine ⟨?_, ?_, ?_, ?_⟩ <;> simp [fetchPostById, showNotification]
  · cases ru with
    | response status d =>
      have h : statusOk status = false := hu
      cases hcp : s.currentPost with
      | some p =>
        refine ⟨?_, ?_, ?_, ?_⟩ <;> simp [handleSubmit, showNotification, h, hcp]
      | none =>
        refine ⟨?_, ?_, ?_, ?_⟩ <;> simp [handleSubmit, showNotification, h, hcp]
    | netError =>
      cases hcp : s.currentPost with
      | some p =>
        refine ⟨?_, ?_, ?_, ?_⟩ <;> simp [handleSubmit, showNotification, hcp]
      | none =>
        refine ⟨?_, ?_, ?_, ?_⟩ <;> simp [handleSubmit, showNotification, hcp]
  · cases rd with
    | response status d =>
      have h : statusOk status = false := hd
      refine ⟨?_, ?_, ?_, ?_⟩ <;> simp [handleDelete, showNotification, h]
    | netError =>
      refine ⟨?_, ?_, ?_, ?_⟩ <;> simp [handleDelete, showNotification]

/-- Witness for C4 at concrete failing outcomes: a rejected list fetch, a
404 on the single-post fetch, a 500 on submit, and a rejected delete. -/
theorem network_failure_uniform_outcome_witness :
    (fetchPosts initialState (NetResult.netError)).state.posts = initialState.posts ∧
    (fetchPostById initialState 7 (NetResult.response 404 samplePost)).state.currentPage
        = initialState.currentPage ∧
    (handleSubmit initialState (NetResult.response 500 ())).state.notification.type = "error" ∧
    (handleDelete initialState 7 NetResult.netError).state.currentPage
        = initialState.currentPage := by
  have h := network_failure_uniform_outcome initialState 7 NetResult.netError
    (NetResult.response 404 samplePost) (NetResult.response 500 ()) NetResult.netError
    (by decide) (by decide) (by decide) (by decide)
  exact ⟨h.1.2.1, h.2.1.1, h.2.2.1.2.2.1, h.2.2.2.1⟩

/-- Claim C5: every transition into the list page triggers exactly one
fetch of the whole post collection. -/
theorem enter_list_single_collection_fetch (s : AppState) (e : Event)
    (r : NetResult (List Post)) (h1 : s.currentPage ≠ Page.list)
    (h2 : (step s e r).state.currentPage = Page.list) :
    ((step s e r).requests.filter isListFetch).length = 1 := by
  rw [step_page] at h2
  rw [step_effect_fired s e r h1 h2]
  show (((dispatch s e).requests
      ++ [(⟨Method.GET, API_BASE_URL, none⟩ : Request)]).filter isListFetch).length = 1
  rw [List.filter_append]
  have hbase : (([⟨Method.GET, API_BASE_URL, none⟩] : List Request).filter isListFetch)
      = [⟨Method.GET, API_BASE_URL, none⟩] := by
    simp [List.filter, isListFetch]
  have hnone : (dispatch s e).requests.filter isListFetch = [] := by
    cases e with
    | createNew => rfl
    | editPost p => rfl
    | viewPost id rv =>
      exfalso
      cases rv with
      | response status d =>
        by_cases hst : statusOk status = true
        · simp [dispatch, fetchPostById, hst] at h2
        · simp [dispatch, fetchPostById, hst, showNotification] at h2
          exact h1 h2
      | netError =>
        simp [dispatch, fetchPostById, showNotification] at h2
        exact h1 h2
    | deletePost id rd =>
      rw [show (dispatch s (Event.deletePost id rd)).requests
            = [⟨Method.DELETE, postUrl id, none⟩] from handleDelete_requests s id rd]
      simp [List.filter, isListFetch]
    | cancelToList => rfl
    | submitForm ru =>
      rw [show (dispatch s (Event.submitForm ru)).requests
            = [⟨(submitMethodUrl s).1, (submitMethodUrl s).2,
                some (Body.formData (buildFormData s))⟩] from handleSubmit_requests s ru]
      simp [List.filter, isListFetch, submitMethodUrl_fst_ne_get]
    | imageChange files => cases files <;> rfl
    | setTitleField t => rfl
    | setContentField c => rfl
    | notificationTimerFire => rfl
  rw [hnone, hbase]
  rfl

/-- Witness for C5: cancelling out of the create page back to the list
triggers exactly one collection fetch. -/
theorem enter_list_single_collection_fetch_witness :
    ((step (handleCreateNew initialState) Event.cancelToList
        NetResult.netError).requests.filter isListFetch).length = 1 :=
  enter_list_single_collection_fetch (handleCreateNew initialState) Event.cancelToList
    NetResult.netError (by decide) (by decide)

/-- Claim C9: a successful delete invoked while the page is already
`list` keeps the page at `list`, triggers no list fetch (the
`[currentPage]` effect does not re-run because the page value did not
change), and leaves the in-memory post list unchanged — the deleted post
is still in it. -/
theorem delete_from_list_no_refetch (s : AppState) (id : Nat) (ru : NetResult Unit)
    (r : NetResult (List Post)) (hpage : s.currentPage = Page.list)
    (hok : ru.isOk = true) :
    (step s (Event.deletePost id ru) r).state.currentPage = Page.list ∧
    (step s (Event.deletePost id ru) r).state.posts = s.posts ∧
    ((step s (Event.deletePost id ru) r).requests.filter isListFetch) = [] := by
  cases ru with
  | netError => exact absurd hok (by decide)
  | response status d =>
    have h : statusOk status = true := hok
    have hd : dispatch s (Event.deletePost id (NetResult.response status d))
        = ⟨{ (showNotification s "Post deleted successfully!" "success").1 with
              currentPage := Page.list },
            [⟨Method.DELETE, postUrl id, none⟩], [⟨3000⟩]⟩ := by
      simp [dispatch, handleDelete, h, showNotification]
    have hs := step_no_effect_same_page s (Event.deletePost id (NetResult.response status d)) r
      (by rw [hd]; simp [showNotification, hpage])
    rw [hs, hd]
    refine ⟨rfl, rfl, ?_⟩
    simp [List.filter, isListFetch]

/-- Witness for C9: deleting a post from the list page with a 204
response leaves the concrete one-post list intact. -/
theorem delete_from_list_no_refetch_witness :
    (step { initialState with posts := [samplePost] }
        (Event.deletePost 7 (NetResult.response 204 ())) NetResult.netError).state.posts
      = [samplePost] := by
  have h := delete_from_list_no_refetch { initialState with posts := [samplePost] } 7
    (NetResult.response 204 ()) NetResult.netError rfl (by decide)
  exact h.2.1

/-- Claim C8: whenever a step leaves a (non-empty) notification different
from the one before it — i.e. a notification was shown — at least one
clearing timer is scheduled, every timer ever scheduled carries the same
fixed 3000 ms delay, and firing the clear resets the notification to
empty. -/
theorem notification_autoclear_fixed_delay (s : AppState) (e : Event)
    (r : NetResult (List Post))
    (hchanged : (step s e r).state.notification ≠ s.notification)
    (hnonempty : (step s e r).state.notification ≠ emptyNotification) :
    (step s e r).timers ≠ [] ∧
    ((step s e r).timers.all (fun t => decide (t.delay = 3000))) = true ∧
    (clearNotification (step s e r).state).notification = emptyNotification := by
  refine ⟨?_, step_timers_all_3000 s e r, rfl⟩
  cases e with
  | createNew =>
    exfalso
    apply hchanged
    rw [step_no_effect s Event.createNew r (by intro hc; simp [dispatch, handleCreateNew] at hc)]
    rfl
  | editPost p =>
    exfalso
    apply hchanged
    rw [step_no_effect s (Event.editPost p) r (by intro hc; simp [dispatch, handleEdit] at hc)]
    rfl
  | viewPost id rv =>
    cases rv with
    | response status d =>
      by_cases hst : statusOk status = true
      · exfalso
        apply hchanged
        have hdv : dispatch s (Event.viewPost id (NetResult.response status d))
            = ⟨{ s with currentPost := some d, title := d.title, content := d.content,
                        imageUrl := d.image, image := none, currentPage := Page.view },
                [⟨Method.GET, postUrl id, none⟩], []⟩ := by
          simp [dispatch, fetchPostById, hst]
        rw [step_no_effect s (Event.viewPost id (NetResult.response status d)) r
          (by rw [hdv]; exact (by decide : Page.view ≠ Page.list)), hdv]
      · have hdv : dispatch s (Event.viewPost id (NetResult.response status d))
            = ⟨(showNotification s "Failed to fetch post details." "error").1,
                [⟨Method.GET, postUrl id, none⟩], [⟨3000⟩]⟩ := by
          simp [dispatch, fetchPostById, hst, showNotification]
        rw [step_timers, hdv]
        simp
    | netError =>
      rw [step_timers]
      simp [dispatch, fetchPostById, showNotification]
  | deletePost id rd =>
    cases rd with
    | response status d =>
      by_cases hst : statusOk status = true <;>
        · rw [step_timers]
          simp [dispatch, handleDelete, hst, showNotification]
    | netError =>
      rw [step_timers]
      simp [dispatch, handleDelete, showNotification]
  | cancelToList =>
    by_cases hpl : s.currentPage = Page.list
    · exfalso
      apply hchanged
      rw [step_no_effect_same_page s Event.cancelToList r (by simp [dispatch, goToList, hpl])]
      rfl
    · have hfired := step_effect_fired s Event.cancelToList r hpl (by simp [dispatch, goToList])
      cases r with
      | response status d =>
        by_cases hst : statusOk status = true
        · exfalso
          apply hchanged
          rw [hfired]
          simp [fetchPosts, hst, dispatch, goToList]
        · rw [hfired]
          simp [fetchPosts, hst, showNotification]
      | netError =>
        rw [hfired]
        simp [fetchPosts, showNotification]
  | submitForm ru =>
    cases ru with
    | response status d =>
      by_cases hst : statusOk status = true <;>
        · rw [step_timers]
          simp [dispatch, handleSubmit, hst, showNotification]
    | netError =>
      rw [step_timers]
      simp [dispatch, handleSubmit, showNotification]
  | imageChange files =>
    exfalso
    apply hchanged
    cases files with
    | nil =>
      rw [step_no_effect_same_page s (Event.imageChange []) r rfl]
      rfl
    | cons f l =>
      rw [step_no_effect_same_page s (Event.imageChange (f :: l)) r rfl]
      rfl
  | setTitleField t =>
    exfalso
    apply hchanged
    rw [step_no_effect_same_page s (Event.setTitleField t) r rfl]
    rfl
  | setContentField c =>
    exfalso
    apply hchanged
    rw [step_no_effect_same_page s (Event.setContentField c) r rfl]
    rfl
  | notificationTimerFire =>
    exfalso
    apply hnonempty
    rw [step_no_effect_same_page s Event.notificationTimerFire r rfl]
    rfl

/-- Witness for C8: a failed delete shows an error notification and
schedules its 3000 ms clear timer. -/
theorem notification_autoclear_fixed_delay_witness :
    (step initialState (Event.deletePost 3 NetResult.netError) NetResult.netError).timers ≠ [] ∧
    ((step initialState (Event.deletePost 3 NetResult.netError)
        NetResult.netError).timers.all (fun t => decide (t.delay = 3000))) = true := by
  have h := notification_autoclear_fixed_delay initialState
    (Event.deletePost 3 NetResult.netError) NetResult.netError (by decide) (by decide)
  exact ⟨h.1, h.2.1⟩

/-- Claim C7: in every reachable UI state, if the current page is view or
edit then a post is currently selected. -/
theorem view_edit_implies_currentPost (s : AppState) (hs : Reachable s)
    (hpage : s.currentPage = Page.view ∨ s.currentPage = Page.edit) :
    s.currentPost.isSome = true := by
  have hinv : pageInv s := by
    clear hpage
    induction hs with
    | init => intro hp; simp [initialState] at hp
    | mount r =>
      intro hp
      rw [fetchPosts_page] at hp
      simp [initialState] at hp
    | next s' e r' hr ih => exact pageInv_step s' e r' ih
  exact hinv hpage

/-- Witness for C7 at the reachable state obtained by editing a concrete
post from the initial state. -/
theorem view_edit_implies_currentPost_witness :
    ((step initialState (Event.editPost samplePost)
        NetResult.netError).state).currentPost.isSome = true :=
  view_edit_implies_currentPost _
    (Reachable.next initialState (Event.editPost samplePost) NetResult.netError Reachable.init)
    (Or.inr (by decide))

end SimpleBlog
